import Mathlib

/-!
Verification of the kanvas renderer core (shadow pipeline, light packing,
billboards) against its specification.  The Rust sources are shallowly
embedded: `f32` scalars become real numbers, machine-size integers become
natural numbers, GPU command recording becomes explicit lists of records.
Rust modules become Lean namespaces with the source names kept.
-/

/- ## Shared math types (src/math.rs prelude re-exports of cgmath types).
cgmath vectors are component structs; `Matrix4` is column major with
columns named `x y z w`, exactly as the Rust code accesses them
(`view_mat.x.y` is column `x`, component `y`). -/

namespace kanvas

structure Vector3 where
  x : ℝ
  y : ℝ
  z : ℝ

structure Vector4 where
  x : ℝ
  y : ℝ
  z : ℝ
  w : ℝ

structure Matrix4 where
  x : Vector4
  y : Vector4
  z : Vector4
  w : Vector4

def Vector4.zero : Vector4 := ⟨0, 0, 0, 0⟩

/- cgmath `Vector3::extend(w)` produces a `Vector4`. -/
def Vector3.extend (v : Vector3) (w : ℝ) : Vector4 := ⟨v.x, v.y, v.z, w⟩

def Vector3.add (a b : Vector3) : Vector3 := ⟨a.x + b.x, a.y + b.y, a.z + b.z⟩

def Vector3.sub (a b : Vector3) : Vector3 := ⟨a.x - b.x, a.y - b.y, a.z - b.z⟩

def Vector3.dot (a b : Vector3) : ℝ := a.x * b.x + a.y * b.y + a.z * b.z

def Vector3.cross (a b : Vector3) : Vector3 :=
  ⟨a.y * b.z - a.z * b.y, a.z * b.x - a.x * b.z, a.x * b.y - a.y * b.x⟩

/- cgmath `normalize`: divide by the Euclidean length. -/
noncomputable def Vector3.normalize (v : Vector3) : Vector3 :=
  let l := Real.sqrt (v.dot v)
  ⟨v.x / l, v.y / l, v.z / l⟩

def Vector4.smul (c : ℝ) (v : Vector4) : Vector4 := ⟨c * v.x, c * v.y, c * v.z, c * v.w⟩

def Vector4.add (a b : Vector4) : Vector4 := ⟨a.x + b.x, a.y + b.y, a.z + b.z, a.w + b.w⟩

/- Column-major matrix/vector product, as in cgmath. -/
def Matrix4.mulVec (m : Matrix4) (v : Vector4) : Vector4 :=
  (((Vector4.smul v.x m.x).add (Vector4.smul v.y m.y)).add
      (Vector4.smul v.z m.z)).add (Vector4.smul v.w m.w)

def Matrix4.mul (a b : Matrix4) : Matrix4 :=
  ⟨a.mulVec b.x, a.mulVec b.y, a.mulVec b.z, a.mulVec b.w⟩

/- cgmath `Matrix4::look_at(eye, center, up)` (right handed). -/
noncomputable def Matrix4.look_at (eye center up : Vector3) : Matrix4 :=
  let f := (center.sub eye).normalize
  let s := (f.cross up).normalize
  let u := s.cross f
  ⟨⟨s.x, u.x, -f.x, 0⟩,
   ⟨s.y, u.y, -f.y, 0⟩,
   ⟨s.z, u.z, -f.z, 0⟩,
   ⟨-(eye.dot s), -(eye.dot u), eye.dot f, 1⟩⟩

/- The rotational 3x3 block of a 4x4 matrix, rows indexed first. -/
def Matrix4.upper3 (m : Matrix4) : Matrix (Fin 3) (Fin 3) ℝ :=
  Matrix.of ![![m.x.x, m.y.x, m.z.x], ![m.x.y, m.y.y, m.z.y], ![m.x.z, m.y.z, m.z.z]]

/- ## src/light.rs -/

namespace light

def MAX_LIGHTS : ℕ := 2

instance : NeZero MAX_LIGHTS := ⟨by decide⟩

inductive LightType where
  | Directional
  | Point

/- `Light { position, color, light_type, billboard }`; the billboard field is
an id the light only stores. -/
structure Light where
  position : Vector3
  color : Vector3
  light_type : LightType
  billboard : ℕ

/- `LightsRaw`: positions and colors as 16-byte aligned `Vector4` arrays of
length `MAX_LIGHTS`. -/
structure LightsRaw where
  positions : Fin MAX_LIGHTS → Vector4
  colors : Fin MAX_LIGHTS → Vector4

/- `Lights::map_raw`: starts from zeroed arrays and fills every occupied
slot `i` with `position.extend(0)` / `color.extend(0)`. -/
def map_raw (lights : Fin MAX_LIGHTS → Option Light) : LightsRaw where
  positions := fun i =>
    match lights i with
    | some l => l.position.extend 0
    | none => Vector4.zero
  colors := fun i =>
    match lights i with
    | some l => l.color.extend 0
    | none => Vector4.zero

end light

/- ## src/shadow.rs -/

namespace shadow

/- `wgpu::BIND_BUFFER_ALIGNMENT` (the dynamic uniform-buffer offset
alignment) is 256 bytes in the wgpu version used. -/
def BIND_BUFFER_ALIGNMENT : ℕ := 256

structure Extent3d where
  width : ℕ
  height : ℕ
  depth : ℕ
  deriving DecidableEq

def SHADOW_SIZE : Extent3d := ⟨1024, 1024, 1⟩

inductive TextureFormat where
  | Depth32Float
  deriving DecidableEq

def SHADOW_FORMAT : TextureFormat := TextureFormat.Depth32Float

/- `ShadowUniforms { light_proj: Matrix4, light_position: Vector3 }`. -/
structure ShadowUniforms where
  light_proj : Matrix4
  light_position : Vector3

/- `mem::size_of::<ShadowUniforms>()`: the struct is `repr(C)` with a
`Matrix4<f32>` (sixteen 4-byte floats) followed by a `Vector3<f32>`
(three 4-byte floats), alignment 4, so no trailing padding. -/
def ShadowUniforms.size_of : ℕ := 16 * 4 + 3 * 4

/- `ShadowPass::new`: uniforms buffer sized to hold all 6 cubemap sides for
each light, one alignment stride per entry. -/
def uniforms_size : ℕ := light.MAX_LIGHTS * 6 * BIND_BUFFER_ALIGNMENT

/- `light_buffer_offset(light_index, face_index)`. -/
def light_buffer_offset (light_index face_index : ℕ) : ℕ :=
  light_index * 6 * BIND_BUFFER_ALIGNMENT + face_index * BIND_BUFFER_ALIGNMENT

/- The layout property claimed for `light_buffer_offset`: the closed-form
value, alignment, in-bounds entry range, and distinctness plus disjointness
of the byte ranges of any two valid entries. -/
def OffsetLayoutOk (l f : ℕ) : Prop :=
  light_buffer_offset l f = l * 6 * BIND_BUFFER_ALIGNMENT + f * BIND_BUFFER_ALIGNMENT
  ∧ BIND_BUFFER_ALIGNMENT ∣ light_buffer_offset l f
  ∧ light_buffer_offset l f + ShadowUniforms.size_of ≤ uniforms_size
  ∧ ∀ l2 f2, l2 < light.MAX_LIGHTS → f2 < 6 → (l ≠ l2 ∨ f ≠ f2) →
      light_buffer_offset l f ≠ light_buffer_offset l2 f2
      ∧ (light_buffer_offset l f + ShadowUniforms.size_of ≤ light_buffer_offset l2 f2
         ∨ light_buffer_offset l2 f2 + ShadowUniforms.size_of ≤ light_buffer_offset l f)

end shadow

/-- Claim C1: for every light index below MAX_LIGHTS and face below 6,
light_buffer_offset equals light*6*ALIGN + face*ALIGN, is a multiple of
ALIGN, and the byte range of the ShadowUniforms entry written there lies
inside the uniforms buffer of size MAX_LIGHTS*6*ALIGN without overlapping
the range of any other valid (light, face) entry. -/
theorem light_buffer_offset_spec (l f : ℕ) (hl : l < light.MAX_LIGHTS) (hf : f < 6) :
    shadow.OffsetLayoutOk l f := by
  unfold shadow.OffsetLayoutOk
  refine ⟨rfl, ⟨l * 6 + f, by unfold shadow.light_buffer_offset; ring⟩, ?_, ?_⟩
  · unfold shadow.light_buffer_offset shadow.uniforms_size shadow.ShadowUniforms.size_of
      shadow.BIND_BUFFER_ALIGNMENT light.MAX_LIGHTS at *
    omega
  · intro l2 f2 hl2 hf2 hne
    unfold shadow.light_buffer_offset shadow.ShadowUniforms.size_of
      shadow.BIND_BUFFER_ALIGNMENT light.MAX_LIGHTS at *
    omega

/-- Witness for C1 at light 0, face 0. -/
theorem light_buffer_offset_spec_witness :
    0 < light.MAX_LIGHTS ∧ 0 < 6 ∧ shadow.OffsetLayoutOk 0 0 :=
  ⟨by decide, by decide, light_buffer_offset_spec 0 0 (by decide) (by decide)⟩

/- ## src/camera.rs (declared in lib.rs, absent from the source tree) -/

namespace camera

/- Standard perspective projection matrix (cgmath `perspective`), column
major: focal factor `f = 1 / tan (fovy / 2)`. -/
noncomputable def perspective (fovy aspect znear zfar : ℝ) : Matrix4 :=
  let f := 1 / Real.tan (fovy / 2)
  ⟨⟨f / aspect, 0, 0, 0⟩,
   ⟨0, f, 0, 0⟩,
   ⟨0, 0, (zfar + znear) / (znear - zfar), -1⟩,
   ⟨0, 0, 2 * zfar * znear / (znear - zfar), 0⟩⟩

/-- Modelled from the spec: `camera.rs` is declared in `lib.rs` but missing
from `src/`.  Section 4.2 of the spec describes the point-light projection as
a standard perspective projection with the given field of view in degrees,
aspect ratio `width / height` (1:1 for the square shadow faces), and the
given near/far planes. -/
structure PerspectiveProjection where
  aspect : ℝ
  fovy : ℝ
  znear : ℝ
  zfar : ℝ

noncomputable def PerspectiveProjection.new (width height : ℕ) (fovy_deg znear zfar : ℝ) :
    PerspectiveProjection :=
  ⟨(width : ℝ) / (height : ℝ), fovy_deg * Real.pi / 180, znear, zfar⟩

noncomputable def PerspectiveProjection.calc_matrix (p : PerspectiveProjection) : Matrix4 :=
  perspective p.fovy p.aspect p.znear p.zfar

/-- Modelled from the spec: `camera.rs` is missing from `src/`; the
directional branch of `create_proj_mat` uses an orthographic projection with
the given clip planes (standard column-major orthographic matrix). -/
structure OrthographicProjection where
  left : ℝ
  right : ℝ
  bottom : ℝ
  top : ℝ
  znear : ℝ
  zfar : ℝ

def OrthographicProjection.new (l r b t n f : ℝ) : OrthographicProjection :=
  ⟨l, r, b, t, n, f⟩

noncomputable def OrthographicProjection.calc_matrix (p : OrthographicProjection) : Matrix4 :=
  ⟨⟨2 / (p.right - p.left), 0, 0, 0⟩,
   ⟨0, 2 / (p.top - p.bottom), 0, 0⟩,
   ⟨0, 0, -2 / (p.zfar - p.znear), 0⟩,
   ⟨-(p.right + p.left) / (p.right - p.left),
    -(p.top + p.bottom) / (p.top - p.bottom),
    -(p.zfar + p.znear) / (p.zfar - p.znear), 1⟩⟩

end camera

namespace shadow

/- `create_proj_mat(light_type)` from src/shadow.rs. -/
noncomputable def create_proj_mat : light.LightType → Matrix4
  | light.LightType.Directional =>
      (camera.OrthographicProjection.new (-10) 10 (-10) 10 0.1 100).calc_matrix
  | light.LightType.Point =>
      (camera.PerspectiveProjection.new 1024 1024 90 0.1 100).calc_matrix

/- The six (axis, up) pairs of `create_light_proj_cube`, in source order:
`+X` up `+Y`, `-X` up `+Y`, `+Y` up `+Z`, `-Y` up `-Z`, `-Z` up `+Y`,
`+Z` up `+Y`. -/
def cube_face_dirs : List (Vector3 × Vector3) :=
  [(⟨1, 0, 0⟩, ⟨0, 1, 0⟩),
   (⟨-1, 0, 0⟩, ⟨0, 1, 0⟩),
   (⟨0, 1, 0⟩, ⟨0, 0, 1⟩),
   (⟨0, -1, 0⟩, ⟨0, 0, -1⟩),
   (⟨0, 0, -1⟩, ⟨0, 1, 0⟩),
   (⟨0, 0, 1⟩, ⟨0, 1, 0⟩)]

/- `create_light_proj_cube(light_pos)`: for each face, the point-light
projection times `Matrix4::look_at(light_pos, light_pos + axis, up)`. -/
noncomputable def create_light_proj_cube (light_pos : Vector3) : List Matrix4 :=
  let light_proj := create_proj_mat light.LightType.Point
  cube_face_dirs.map fun fc =>
    light_proj.mul (Matrix4.look_at light_pos (light_pos.add fc.1) fc.2)

end shadow

/-- Claim C2: create_light_proj_cube returns exactly six transforms; the view
directions (look-at target minus the light position) are the face axes, which
are pairwise distinct unit vectors covering +X, -X, +Y, -Y, +Z, -Z exactly
once each, in source order +X(up +Y), -X(up +Y), +Y(up +Z), -Y(up -Z), then
the two Z faces with up +Y. -/
theorem create_light_proj_cube_faces_spec (P : Vector3) :
    (shadow.create_light_proj_cube P).length = 6
    ∧ List.Forall
        (fun fc : Vector3 × Vector3 =>
          (P.add fc.1).sub P = fc.1 ∧ fc.1.dot fc.1 = 1 ∧ fc.2.dot fc.2 = 1)
        shadow.cube_face_dirs
    ∧ shadow.cube_face_dirs.map Prod.fst =
        [⟨1, 0, 0⟩, ⟨-1, 0, 0⟩, ⟨0, 1, 0⟩, ⟨0, -1, 0⟩, ⟨0, 0, -1⟩, ⟨0, 0, 1⟩]
    ∧ shadow.cube_face_dirs.map Prod.snd =
        [⟨0, 1, 0⟩, ⟨0, 1, 0⟩, ⟨0, 0, 1⟩, ⟨0, 0, -1⟩, ⟨0, 1, 0⟩, ⟨0, 1, 0⟩]
    ∧ (shadow.cube_face_dirs.map Prod.fst).Pairwise Ne := by
  refine ⟨rfl, ?_, rfl, rfl, ?_⟩
  · simp only [shadow.cube_face_dirs, List.Forall, Vector3.add, Vector3.sub,
      Vector3.dot, Vector3.mk.injEq]
    norm_num
  · norm_num [shadow.cube_face_dirs, List.pairwise_cons, Vector3.mk.injEq]

namespace shadow

/- `ShadowPass::update_light`: recomputes the six projections from the light
position and writes a `ShadowUniforms { light_proj, light_position }` record
at byte offset `light_buffer_offset(light_index, i)` for each enumerated
face `i`.  The result lists the (offset, record) pairs in write order. -/
noncomputable def update_light_writes (light_index : ℕ) (l : light.Light) :
    List (ℕ × ShadowUniforms) :=
  (create_light_proj_cube l.position).enum.map fun pr =>
    (light_buffer_offset light_index pr.1, ⟨pr.2, l.position⟩)

/- The draw recorded by `ShadowPassRunner::render(data, face_index,
light_index)`: it binds the uniforms bind group at this single dynamic
offset and issues the indexed draw. -/
structure DrawCmd where
  dynamic_offset : ℕ
  deriving DecidableEq

def ShadowPassRunner.render_draw (face_index light_index : ℕ) : DrawCmd :=
  ⟨light_buffer_offset light_index face_index⟩

inductive LoadOp where
  | Clear (value : ℚ)
  | Load
  deriving DecidableEq

/- One recorded render pass: the empty color attachment list, the index of
the face target whose view is the depth attachment, the depth operations,
and the draws recorded inside the pass. -/
structure RenderPassRecord where
  color_attachments : List Unit
  attachment_face : ℕ
  depth_load : LoadOp
  depth_store : Bool
  draws : List DrawCmd

structure CommandEncoder where
  passes : List RenderPassRecord

/- A runner holds the index of the encoder pass its draws are recorded in. -/
structure ShadowPassRunner where
  pass_index : ℕ

def listModify {α : Type} : List α → ℕ → (α → α) → List α
  | [], _, _ => []
  | a :: rest, 0, f => f a :: rest
  | a :: rest, n + 1, f => a :: listModify rest n f

/- `ShadowPass::begin(encoder, face_index)`: records one pass on
`targets[face_index]` with depth load `Clear(1.0)` and store, then a second
pass on the same target with depth load `Load`, sets the pipeline, and
returns the runner recording draws into that second pass. -/
def ShadowPass.begin (enc : CommandEncoder) (face_index : ℕ) :
    CommandEncoder × ShadowPassRunner :=
  let enc1 : CommandEncoder :=
    ⟨enc.passes ++ [⟨[], face_index, LoadOp.Clear 1, true, []⟩]⟩
  let enc2 : CommandEncoder :=
    ⟨enc1.passes ++ [⟨[], face_index, LoadOp.Load, true, []⟩]⟩
  (enc2, ⟨enc2.passes.length - 1⟩)

/- `ShadowPassRunner::render`: appends its draw, with the dynamic offset
`light_buffer_offset(light_index, face_index)`, to the pass the runner was
created with. -/
def ShadowPassRunner.render (enc : CommandEncoder) (r : ShadowPassRunner)
    (face_index light_index : ℕ) : CommandEncoder :=
  ⟨listModify enc.passes r.pass_index fun p =>
    {p with draws := p.draws ++ [ShadowPassRunner.render_draw face_index light_index]}⟩

structure Origin3d where
  x : ℕ
  y : ℕ
  z : ℕ
  deriving DecidableEq

def Origin3d.ZERO : Origin3d := ⟨0, 0, 0⟩

structure Texture where
  size : Extent3d
  format : TextureFormat
  deriving DecidableEq

structure TextureCopyView where
  texture : Texture
  mip_level : ℕ
  origin : Origin3d
  deriving DecidableEq

structure CopyTextureCmd where
  src : TextureCopyView
  dst : TextureCopyView
  extent : Extent3d
  deriving DecidableEq

/- `ShadowMapTarget`: only its texture matters for the copies; the view and
bind group are GPU handles not inspected by the copies. -/
structure ShadowMapTarget where
  texture : Texture

/- The per-face depth target made by `create_target` in `ShadowPass::new`:
size `SHADOW_SIZE`, format `SHADOW_FORMAT`. -/
def create_target : ShadowMapTarget := ⟨⟨SHADOW_SIZE, SHADOW_FORMAT⟩⟩

/- `ShadowPass::new` builds six such targets. -/
def shadow_pass_targets : List ShadowMapTarget :=
  [create_target, create_target, create_target, create_target, create_target, create_target]

/- The per-light cubemap texture from `ShadowCubemap::new`: 1024 by 1024
with depth 6 (six array layers), format `SHADOW_FORMAT`. -/
def ShadowCubemap.texture : Texture := ⟨⟨1024, 1024, 6⟩, SHADOW_FORMAT⟩

/- `ShadowPass::copy_to_cubemap`: for each enumerated target `i`, one
`copy_texture_to_texture` from the target texture at mip 0, origin zero,
into the cubemap at mip 0, origin `(0, 0, i)`, extent 1024 by 1024 by 1. -/
def copy_to_cubemap (targets : List ShadowMapTarget) (cubemap : Texture) :
    List CopyTextureCmd :=
  targets.enum.map fun pr =>
    ⟨⟨pr.2.texture, 0, Origin3d.ZERO⟩,
     ⟨cubemap, 0, ⟨0, 0, pr.1⟩⟩,
     ⟨1024, 1024, 1⟩⟩

end shadow

/-- Claim C5: the shadow-transform writer and the draw-time binder address
the uniforms buffer identically: the six byte offsets written by
update_light for a light are exactly the dynamic offsets that
ShadowPassRunner.render binds for faces 0 through 5 of that light, both
given by light_buffer_offset. -/
theorem shadow_offset_single_source_spec (light_index : ℕ) (l : light.Light) :
    (shadow.update_light_writes light_index l).map Prod.fst =
      (List.range 6).map fun f =>
        (shadow.ShadowPassRunner.render_draw f light_index).dynamic_offset := by
  rfl

/-- Helper for C9: folding runner draws over a two-pass encoder only appends
the draws to the second pass. -/
theorem render_foldl_aux (p0 p1 : shadow.RenderPassRecord) (calls : List (ℕ × ℕ)) :
    (calls.foldl (fun e c => shadow.ShadowPassRunner.render e ⟨1⟩ c.1 c.2)
        ⟨[p0, p1]⟩).passes =
      [p0, {p1 with draws :=
        p1.draws ++ calls.map fun c => shadow.ShadowPassRunner.render_draw c.1 c.2}] := by
  induction calls generalizing p1 with
  | nil => simp
  | cons c cs ih =>
      rw [List.foldl_cons,
        show shadow.ShadowPassRunner.render ⟨[p0, p1]⟩ ⟨1⟩ c.1 c.2 =
          (⟨[p0, {p1 with draws :=
            p1.draws ++ [shadow.ShadowPassRunner.render_draw c.1 c.2]}]⟩ :
            shadow.CommandEncoder) from rfl,
        ih]
      simp

/-- Claim C9: ShadowPass.begin records, in order, exactly one depth-only
pass on targets[face_index] clearing depth to 1.0, then a second depth-only
pass on the same target with load operation Load; every draw issued through
the returned runner lands in the second pass, so the clear happens exactly
once, before the first draw for that face. -/
theorem shadow_begin_clear_then_load_spec (face_index : ℕ) (calls : List (ℕ × ℕ)) :
    (calls.foldl
        (fun e c =>
          shadow.ShadowPassRunner.render e
            (shadow.ShadowPass.begin ⟨[]⟩ face_index).2 c.1 c.2)
        (shadow.ShadowPass.begin ⟨[]⟩ face_index).1).passes =
      [⟨[], face_index, shadow.LoadOp.Clear 1, true, []⟩,
       ⟨[], face_index, shadow.LoadOp.Load, true,
        calls.map fun c => shadow.ShadowPassRunner.render_draw c.1 c.2⟩] := by
  exact render_foldl_aux _ _ calls

/-- Claim C8: copy_to_cubemap records exactly six copies; for each face f
below 6 there is exactly one copy with destination layer f, and it takes
the full 1024 by 1024 extent of the depth texture of targets[f] at mip 0,
origin zero, into array layer f of the cubemap at mip 0, in the same depth
pixel format. -/
theorem copy_to_cubemap_spec :
    (shadow.copy_to_cubemap shadow.shadow_pass_targets shadow.ShadowCubemap.texture).length = 6
    ∧ (∀ f : Fin 6,
        ((shadow.copy_to_cubemap shadow.shadow_pass_targets
            shadow.ShadowCubemap.texture).countP
          fun c => c.dst.origin.z == (f : ℕ)) = 1
        ∧ (shadow.copy_to_cubemap shadow.shadow_pass_targets
            shadow.ShadowCubemap.texture)[(f : ℕ)]? =
          some ⟨⟨shadow.create_target.texture, 0, shadow.Origin3d.ZERO⟩,
                ⟨shadow.ShadowCubemap.texture, 0, ⟨0, 0, (f : ℕ)⟩⟩,
                ⟨1024, 1024, 1⟩⟩)
    ∧ List.Forall
        (fun c : shadow.CopyTextureCmd =>
          c.extent.width = c.src.texture.size.width
          ∧ c.extent.height = c.src.texture.size.height
          ∧ c.extent.depth = 1
          ∧ c.src.texture.format = shadow.SHADOW_FORMAT
          ∧ c.dst.texture.format = shadow.SHADOW_FORMAT)
        (shadow.copy_to_cubemap shadow.shadow_pass_targets shadow.ShadowCubemap.texture) := by
  refine ⟨rfl, ?_, ?_⟩
  · decide
  · decide

/-- Claim C6: each of the six transforms equals the fixed point-light
perspective projection (90 degree field of view, aspect 1 from the square
1024 by 1024 faces, near 0.1, far 100) multiplied on the right by the
look-at view matrix from P toward P plus the face axis with the face up
vector. -/
theorem light_proj_cube_projection_spec (P : Vector3) :
    shadow.create_proj_mat light.LightType.Point =
      camera.perspective (Real.pi / 2) 1 0.1 100
    ∧ shadow.create_light_proj_cube P =
        shadow.cube_face_dirs.map fun fc =>
          (camera.perspective (Real.pi / 2) 1 0.1 100).mul
            (Matrix4.look_at P (P.add fc.1) fc.2) := by
  have hproj : shadow.create_proj_mat light.LightType.Point =
      camera.perspective (Real.pi / 2) 1 0.1 100 := by
    unfold shadow.create_proj_mat camera.PerspectiveProjection.calc_matrix
      camera.PerspectiveProjection.new
    rw [show ((1024 : ℕ) : ℝ) / ((1024 : ℕ) : ℝ) = 1 by norm_num,
      show (90 : ℝ) * Real.pi / 180 = Real.pi / 2 by ring]
  refine ⟨hproj, ?_⟩
  simp only [shadow.create_light_proj_cube, hproj]

namespace light

/- A concrete slot array for the single-light packing example of the spec:
only slot 0 holds a light, at position (1,2,3) with color (1,1,1). -/
def example_light : Light := ⟨⟨1, 2, 3⟩, ⟨1, 1, 1⟩, LightType.Point, 0⟩

def example_slots : Fin MAX_LIGHTS → Option Light :=
  fun j => if j = 0 then some example_light else none

/-- Modelled from the spec: `add_light` is described by the spec (sections 3
and 4.1) but is not implemented in the source; `Lights::new` hardcodes two
lights.  Per the spec, the light set is a fixed-capacity slot array of size
`MAX_LIGHTS`, a slot is `None` until allocated, `add_light(position)`
allocates the first free slot and returns its index as the stable
`LightId`, and it returns `none` (a recoverable condition, not an abort)
when all slots are occupied. -/
def add_light : List (Option Light) → Vector3 → Option ℕ × List (Option Light)
  | [], _ => (none, [])
  | none :: rest, p =>
      (some 0, some ⟨p, ⟨1, 1, 1⟩, LightType.Point, 0⟩ :: rest)
  | some l :: rest, p =>
      let r := add_light rest p
      (r.1.map fun n => n + 1, some l :: r.2)

/- A fresh slot array: every slot unoccupied. -/
def fresh_lights : List (Option Light) := List.replicate MAX_LIGHTS none

end light

/-- Claim C3: map_raw maps every occupied slot i holding a light with
position p and color c to positions entry (p.x, p.y, p.z, 0) and colors
entry (c.x, c.y, c.z, 0), and every empty slot to the zero 4-vector in both
arrays; in particular the all-empty array maps to all zeros, and the array
holding only slot 0 with position (1,2,3) and color (1,1,1) yields exactly
slot 0 populated and the rest zero. -/
theorem lights_map_raw_spec (lights : Fin light.MAX_LIGHTS → Option light.Light)
    (i : Fin light.MAX_LIGHTS) :
    (∀ l, lights i = some l →
        (light.map_raw lights).positions i = ⟨l.position.x, l.position.y, l.position.z, 0⟩
        ∧ (light.map_raw lights).colors i = ⟨l.color.x, l.color.y, l.color.z, 0⟩)
    ∧ (lights i = none →
        (light.map_raw lights).positions i = Vector4.zero
        ∧ (light.map_raw lights).colors i = Vector4.zero)
    ∧ (∀ j : Fin light.MAX_LIGHTS,
        (light.map_raw fun _ => none).positions j = Vector4.zero
        ∧ (light.map_raw fun _ => none).colors j = Vector4.zero)
    ∧ (light.map_raw light.example_slots).positions 0 = ⟨1, 2, 3, 0⟩
    ∧ (light.map_raw light.example_slots).colors 0 = ⟨1, 1, 1, 0⟩
    ∧ ∀ j : Fin light.MAX_LIGHTS, j ≠ 0 →
        (light.map_raw light.example_slots).positions j = Vector4.zero
        ∧ (light.map_raw light.example_slots).colors j = Vector4.zero := by
  refine ⟨?_, ?_, ?_, rfl, rfl, ?_⟩
  · intro l hl
    constructor <;> simp [light.map_raw, hl, Vector3.extend]
  · intro hl
    constructor <;> simp [light.map_raw, hl]
  · intro j
    constructor <;> simp [light.map_raw]
  · intro j hj
    constructor <;> simp [light.map_raw, light.example_slots, hj]

/-- Witness for C3: the occupied and empty branches instantiated on the
single-light example array and the all-empty array. -/
theorem lights_map_raw_spec_witness :
    (light.map_raw light.example_slots).positions 0 = ⟨1, 2, 3, 0⟩
    ∧ (light.map_raw fun _ => none).positions 0 = Vector4.zero :=
  ⟨((lights_map_raw_spec light.example_slots 0).1 light.example_light rfl).1,
   ((lights_map_raw_spec (fun _ => none) 0).2.1 rfl).1⟩

/-- Claim C4 (spec-modelled): calling add_light MAX_LIGHTS + 1 times on a
fresh light set returns Some with the increasing distinct ids 0 and 1 for
the first MAX_LIGHTS = 2 calls and returns none, without aborting, on the
final call when all slots are occupied. -/
theorem add_light_capacity_spec (p1 p2 p3 : Vector3) :
    (light.add_light light.fresh_lights p1).1 = some 0
    ∧ (light.add_light (light.add_light light.fresh_lights p1).2 p2).1 = some 1
    ∧ (light.add_light
        (light.add_light (light.add_light light.fresh_lights p1).2 p2).2 p3).1 = none :=
  ⟨rfl, rfl, rfl⟩

/- ## src/billboard.rs -/

namespace billboard

def MAX_BILLBOARDS : ℕ := 10000

abbrev BillboardId := ℕ

abbrev MaterialId := ℕ

structure Billboard where
  position : Vector3
  material : MaterialId

/- Per-material instance data: the instance counter together with the
fixed-size GPU instance buffer allocated once at
`MAX_BILLBOARDS * size_of InstanceRaw` bytes (an `InstanceRaw` holds one
`Matrix4`, 64 bytes); no growth path exists. -/
structure BillboardData where
  num_instances : ℕ
  instance_buffer_size : ℕ

structure Billboards where
  next_id : ℕ
  billboards : List (BillboardId × Billboard)
  instances : MaterialId → Option BillboardData

/- `Billboards::new`. -/
def Billboards.new : Billboards := ⟨0, [], fun _ => none⟩

/- `Billboards::insert`: `entry(material).or_insert_with` creates the data
with a zero counter and the fixed-size buffer when the material is absent;
then the returned id is `next_id`, `next_id` is incremented, the billboard
is stored under the id, and the instance counter is incremented.  No
capacity check appears anywhere. -/
def Billboards.insert (s : Billboards) (b : Billboard) : Billboards × BillboardId :=
  let data := (s.instances b.material).getD ⟨0, MAX_BILLBOARDS * 64⟩
  let id := s.next_id
  (⟨id + 1, (id, b) :: s.billboards,
    fun m => if m = b.material
      then some ⟨data.num_instances + 1, data.instance_buffer_size⟩
      else s.instances m⟩,
   id)

/- Sequential insertion, returning the final state and the ids in call
order. -/
def insert_all (s : Billboards) : List Billboard → Billboards × List BillboardId
  | [] => (s, [])
  | b :: rest =>
      let r := s.insert b
      let r2 := insert_all r.1 rest
      (r2.1, r.2 :: r2.2)

/- The billboard matrix built per instance in `Billboards::upload`
(`Matrix4::new` takes its sixteen entries in column-major order): the
transposed 3 by 3 rotational part of the camera view matrix, translated to
the billboard world position. -/
def billboard_transform (view_mat : Matrix4) (position : Vector3) : Matrix4 :=
  ⟨⟨view_mat.x.x, view_mat.y.x, view_mat.z.x, 0⟩,
   ⟨view_mat.x.y, view_mat.y.y, view_mat.z.y, 0⟩,
   ⟨view_mat.x.z, view_mat.y.z, view_mat.z.z, 0⟩,
   ⟨position.x, position.y, position.z, 1⟩⟩

end billboard

/-- Claim C7: the per-instance billboard matrix has its upper-left 3 by 3
block equal to the transpose of the 3 by 3 rotational part of the camera
view matrix, and its fourth (translation) column equal to
(p.x, p.y, p.z, 1), for every view matrix and billboard position; in
particular the translation column equals p regardless of any rotation in
the view matrix. -/
theorem billboard_transform_spec (view_mat : Matrix4) (p : Vector3) :
    (billboard.billboard_transform view_mat p).upper3 = view_mat.upper3.transpose
    ∧ (billboard.billboard_transform view_mat p).w = ⟨p.x, p.y, p.z, 1⟩ := by
  constructor
  · ext i j
    fin_cases i <;> fin_cases j <;> rfl
  · rfl

/-- Helper for C10: inserting a list of billboards returns consecutive ids
starting at the next free id of the starting state. -/
theorem insert_all_ids (bs : List billboard.Billboard) :
    ∀ s : billboard.Billboards,
      (billboard.insert_all s bs).2 =
        (List.range bs.length).map fun i => s.next_id + i := by
  induction bs with
  | nil => intro s; simp [billboard.insert_all]
  | cons b rest ih =>
      intro s
      simp only [billboard.insert_all, List.length_cons]
      rw [ih]
      rw [List.range_succ_eq_map, List.map_cons, List.map_map]
      have h1 : ((s.insert b).1).next_id = s.next_id + 1 := rfl
      rw [h1]
      have h2 : ((fun i => s.next_id + i) ∘ Nat.succ) = fun i => s.next_id + 1 + i := by
        funext i
        simp only [Function.comp]
        omega
      rw [h2]
      simp [billboard.Billboards.insert]

/-- Claim C10: Billboards.insert never fails and performs no capacity
check: every call returns the current next id and increments it, the
instance counter of the inserted material grows by exactly one, and from a
fresh set the returned ids of any insertion sequence are
0, 1, ..., n - 1 — strictly increasing and distinct — even for n past
MAX_BILLBOARDS, the fixed capacity of the lazily allocated per-material
instance buffer. -/
theorem billboards_insert_unchecked_spec (s : billboard.Billboards)
    (b : billboard.Billboard) (bs : List billboard.Billboard) :
    (s.insert b).2 = s.next_id
    ∧ (s.insert b).1.next_id = s.next_id + 1
    ∧ ((s.insert b).1.instances b.material).map billboard.BillboardData.num_instances =
        some ((((s.instances b.material).map billboard.BillboardData.num_instances).getD 0) + 1)
    ∧ (billboard.insert_all billboard.Billboards.new bs).2 = List.range bs.length
    ∧ (billboard.insert_all billboard.Billboards.new
        (List.replicate (billboard.MAX_BILLBOARDS + 1) b)).2 =
        List.range (billboard.MAX_BILLBOARDS + 1) := by
  refine ⟨rfl, rfl, ?_, ?_, ?_⟩
  · cases h : s.instances b.material <;>
      simp [billboard.Billboards.insert, h]
  · rw [insert_all_ids]
    simp [billboard.Billboards.new]
  · rw [insert_all_ids]
    simp [billboard.Billboards.new]

end kanvas
